import Mathlib

/-!
Verification of the core request/response pipeline of the enigma.js
session layer: the frame construction performed by Session.send, the
default response interceptors, the idempotence of Session.open, the
promise decoration carrying requestId, the notification fan-out, and the
behaviour of the socket event handlers while the session is suspended.

JavaScript objects are shallowly embedded as association lists from
property names to values; a property read on a missing key yields the
undefined value, as in JavaScript.
-/

namespace Enigma

/-- JavaScript values, shallowly embedded: the primitives, arrays and
objects. Objects are association lists where the first binding of a key
wins on lookup. -/
inductive JsValue where
  | undef : JsValue
  | null : JsValue
  | bool : Bool → JsValue
  | num : Int → JsValue
  | str : String → JsValue
  | arr : List JsValue → JsValue
  | obj : List (String × JsValue) → JsValue

/-- Property lookup on an association list of object fields: the first
binding of the key wins; a missing key reads as the undefined value. -/
def getKey : List (String × JsValue) → String → JsValue
  | [], _ => JsValue.undef
  | (k, v) :: rest, key => if k == key then v else getKey rest key

/-- Whether an association list of object fields binds a key. -/
def hasKey (fields : List (String × JsValue)) (key : String) : Bool :=
  fields.any (fun kv => kv.1 == key)

/-- Property read on a JavaScript value: only objects have properties;
any other receiver yields the undefined value. -/
def JsValue.getProp : JsValue → String → JsValue
  | .obj fields, key => getKey fields key
  | _, _ => JsValue.undef

/-- Elements of a JavaScript array value; anything else reads as empty. -/
def JsValue.elems : JsValue → List JsValue
  | .arr xs => xs
  | _ => []

/-- String content of a JavaScript string value; anything else reads as
the empty string. -/
def JsValue.asString : JsValue → String
  | .str s => s
  | _ => ""

/-- JavaScript truthiness: undefined, null, false, zero and the empty
string are falsy; every other value is truthy. -/
def JsValue.truthy : JsValue → Bool
  | .undef => false
  | .null => false
  | .bool b => b
  | .num n => !(n == 0)
  | .str s => !(s == "")
  | .arr _ => true
  | .obj _ => true

/-- Allow-list of request keys forwarded to the RPC layer, from the data
model of the specification and step 3 of the Session.send pipeline. -/
def allowList : List String :=
  ["method", "handle", "params", "delta", "cont", "id", "jsonrpc", "return_empty"]

/-- Modelled from the spec: step 3 of the Session.send pipeline strips
every key of the outgoing request that is not on the allow-list. The
session source file is absent from the surveyed tree, which holds only
its test suite, so the pipeline is modelled from the specification. -/
def stripUnknown (request : List (String × JsValue)) : List (String × JsValue) :=
  request.filter (fun kv => allowList.contains kv.1)

/-- Modelled from the spec: step 2 of the Session.send pipeline merges the
protocol options into the request; a key the caller already set on the
request is never overridden, so an explicit per-call value such as a
delta of false wins over a protocol delta of true. -/
def mergeProtocol (protocol request : List (String × JsValue)) :
    List (String × JsValue) :=
  request ++ protocol.filter (fun kv => !(hasKey request kv.1))

/-- Modelled from the spec: the frame Session.send hands to rpc.send,
obtained by merging the protocol options into the request and then
stripping the keys that are not on the allow-list. -/
def buildFrame (protocol request : List (String × JsValue)) :
    List (String × JsValue) :=
  stripUnknown (mergeProtocol protocol request)

/-- Modelled from the spec: the part of the session state the verified
operations read and update. Promises are identified by numeric tokens so
that promise identity, as in the idempotence of Session.open, is
expressible; the id counter of the RPC layer is incremented before each
assignment, so the next assigned id is nextRequestId plus one. -/
structure SessionState where
  isSuspended : Bool
  socketOpen : Bool
  suspendOnClose : Bool
  protocol : List (String × JsValue)
  openPromise : Option Nat
  nextPromiseId : Nat
  nextRequestId : Nat

/-- Modelled from the spec, design note on promise-chain property
decoration: a promise together with the decoration properties installed
by Session.addToPromiseChain, which every derived promise keeps. -/
structure DecoratedPromise where
  props : List (String × JsValue)
  value : JsValue

/-- Modelled from the spec: a .then step on a decorated promise transforms
the value and keeps every decoration property. -/
def DecoratedPromise.thenD (p : DecoratedPromise) (f : JsValue → JsValue) :
    DecoratedPromise :=
  ⟨p.props, f p.value⟩

/-- Modelled from the spec and mirroring the static helper of the session
module: install a property on a promise so that the promise, and every
promise chained off it, exposes the property. -/
def Session.addToPromiseChain (p : DecoratedPromise) (key : String) (v : JsValue) :
    DecoratedPromise :=
  ⟨(key, v) :: p.props, p.value⟩

/-- Overwrite of one property on an object, modelling a JavaScript
property assignment. -/
def setKey (fields : List (String × JsValue)) (key : String) (v : JsValue) :
    List (String × JsValue) :=
  (key, v) :: fields.filter (fun kv => !(kv.1 == key))

/-- Modelled from the spec: the outcome of one Session.send call. Either
the returned promise rejects with a state error and nothing reaches the
RPC layer, or a frame is handed to rpc.send together with the mutated
request, carrying the assigned id, and the decorated promise returned to
the caller. -/
inductive SendOutcome where
  | rejected : String → SendOutcome
  | forwarded : List (String × JsValue) → List (String × JsValue) →
      DecoratedPromise → SendOutcome

/-- Frames a send outcome hands to the RPC layer: none on rejection. -/
def SendOutcome.frames : SendOutcome → List (List (String × JsValue))
  | .rejected _ => []
  | .forwarded frame _ _ => [frame]

/-- Modelled from the spec: Session.send. While suspended the promise
rejects with the message Session suspended; without an established socket
it rejects as well; otherwise the frame is built by protocol merge and
allow-list strip and handed to rpc.send, the RPC layer assigns the next
request id, the id is mutated into the request object of the caller, and
the returned promise is decorated with a requestId property. -/
def Session.send (s : SessionState) (request : List (String × JsValue)) :
    SendOutcome × SessionState :=
  if s.isSuspended then (SendOutcome.rejected "Session suspended", s)
  else if !s.socketOpen then (SendOutcome.rejected "No socket established", s)
  else
    let frame := buildFrame s.protocol request
    let rid := s.nextRequestId + 1
    let request1 := setKey request "id" (JsValue.num rid)
    let promise :=
      Session.addToPromiseChain ⟨[], JsValue.undef⟩ "requestId" (JsValue.num rid)
    (SendOutcome.forwarded frame request1 promise, { s with nextRequestId := rid })

/-- Modelled from the spec: Session.open. If an open is already pending or
completed the very same promise is returned and the state is untouched;
otherwise a fresh promise is created and recorded. -/
def Session.open (s : SessionState) : Nat × SessionState :=
  match s.openPromise with
  | some p => (p, s)
  | none =>
      (s.nextPromiseId,
       { s with
          openPromise := some s.nextPromiseId
          nextPromiseId := s.nextPromiseId + 1 })

/-- An event emitted on the session bus: an event name and its payload. -/
structure Emitted where
  event : String
  args : List JsValue

/-- Modelled from the spec: the handler of socket error events. While
suspended, socket events are ignored; otherwise the error is re-emitted
verbatim as a socket-error event. -/
def Session.onError (s : SessionState) (err : JsValue) : List Emitted :=
  if s.isSuspended then [] else [⟨"socket-error", [err]⟩]

/-- Modelled from the spec: the handler of socket close events. While
suspended, socket events are ignored; an unsolicited close with
suspendOnClose set suspends the session instead of closing it; any other
close emits the closed event with the close code. -/
def Session.onClosed (s : SessionState) (code : Int) : List Emitted :=
  if s.isSuspended then []
  else if s.suspendOnClose && !(code == 1000) then [⟨"suspended", []⟩]
  else [⟨"closed", [JsValue.num code]⟩]

/-- Modelled from the spec: the handler of RPC message events carrying
side-band change and close arrays. While suspended, socket events are
ignored; otherwise a handle:changed event fires for every entry of the
change array and a handle:closed event for every entry of the close
array. -/
def Session.onMessage (s : SessionState) (msg : JsValue) : List Emitted :=
  if s.isSuspended then []
  else
    ((msg.getProp "change").elems.map (fun h => ⟨"handle:changed", [h]⟩)) ++
    ((msg.getProp "close").elems.map (fun h => ⟨"handle:closed", [h]⟩))

/-- Modelled from the spec: the notification routing of the session. Every
notification received from the RPC layer is fanned out on the typed
channel, named after the method and carrying the params, and on the
wildcard channel, carrying the method name as first argument followed by
the params. -/
def Session.onNotification (n : JsValue) : List Emitted :=
  [⟨"notification:" ++ (n.getProp "method").asString, [n.getProp "params"]⟩,
   ⟨"notification:*", [n.getProp "method", n.getProp "params"]⟩]

/-- RPC error carried to the caller: code, parameter and message taken
verbatim from the error body of the response. -/
structure RpcError where
  code : JsValue
  parameter : JsValue
  message : JsValue

/-- Modelled from the spec: the error response interceptor. Its source
file is absent from the surveyed tree, which holds only its test. A
response whose body carries an error is turned into a thrown RpcError
whose code, parameter and message are copied verbatim from the error
body; any other response passes through unchanged. -/
def errorInterceptor (session request response : JsValue) :
    Except RpcError JsValue :=
  let e := response.getProp "error"
  if e.truthy then
    Except.error ⟨e.getProp "code", e.getProp "parameter", e.getProp "message"⟩
  else Except.ok response

/-- Process result interceptor, from the source file
src/interceptors/response/result.js: returns the result property on the
response. -/
def resultInterceptor (session request response : JsValue) : JsValue :=
  response.getProp "result"

/-! Lemmas about property lookup on association lists. -/

theorem hasKey_cons (k : String) (v : JsValue) (rest : List (String × JsValue))
    (key : String) :
    hasKey ((k, v) :: rest) key = ((k == key) || hasKey rest key) := by
  simp [hasKey]

theorem getKey_eq_undef_of_hasKey_false (fields : List (String × JsValue))
    (key : String) (h : hasKey fields key = false) :
    getKey fields key = JsValue.undef := by
  induction fields with
  | nil => rfl
  | cons kv rest ih =>
      obtain ⟨k, v⟩ := kv
      rw [hasKey_cons, Bool.or_eq_false_iff] at h
      simp [getKey, h.1, ih h.2]

theorem getKey_append (l₁ l₂ : List (String × JsValue)) (key : String) :
    getKey (l₁ ++ l₂) key =
      if hasKey l₁ key then getKey l₁ key else getKey l₂ key := by
  induction l₁ with
  | nil => simp [hasKey, getKey]
  | cons kv rest ih =>
      obtain ⟨k, v⟩ := kv
      by_cases hk : k = key
      · subst hk
        simp [getKey, hasKey_cons]
      · have hb : (k == key) = false := by simpa using hk
        simp [getKey, hasKey_cons, hb, ih]

theorem getKey_filter (p : String × JsValue → Bool) (l : List (String × JsValue))
    (key : String) (hp : ∀ v, p (key, v) = true) :
    getKey (l.filter p) key = getKey l key := by
  induction l with
  | nil => rfl
  | cons kv rest ih =>
      obtain ⟨k, v⟩ := kv
      by_cases hk : k = key
      · subst hk
        simp [List.filter_cons, hp v, getKey]
      · have hb : (k == key) = false := by simpa using hk
        by_cases hpk : p (k, v) = true
        · simp [List.filter_cons, hpk, getKey, hb, ih]
        · have hpk' : p (k, v) = false := by simpa using hpk
          simp [List.filter_cons, hpk', getKey, hb, ih]

theorem hasKey_filter_of_false (p : String × JsValue → Bool)
    (l : List (String × JsValue)) (key : String) (hp : ∀ v, p (key, v) = false) :
    hasKey (l.filter p) key = false := by
  induction l with
  | nil => rfl
  | cons kv rest ih =>
      obtain ⟨k, v⟩ := kv
      by_cases hk : k = key
      · subst hk
        simp [List.filter_cons, hp v, ih]
      · have hb : (k == key) = false := by simpa using hk
        by_cases hpk : p (k, v) = true
        · simp [List.filter_cons, hpk, hasKey_cons, hb, ih]
        · have hpk' : p (k, v) = false := by simpa using hpk
          simp [List.filter_cons, hpk', ih]

theorem mem_stripUnknown {kv : String × JsValue} {l : List (String × JsValue)}
    (h : kv ∈ stripUnknown l) : kv.1 ∈ allowList := by
  have hm := List.mem_filter.mp h
  exact List.elem_iff.mp hm.2

theorem getKey_stripUnknown (l : List (String × JsValue)) (key : String)
    (hk : key ∈ allowList) :
    getKey (stripUnknown l) key = getKey l key := by
  refine getKey_filter _ l key (fun v => ?_)
  exact List.elem_iff.mpr hk

theorem getKey_mergeProtocol (protocol request : List (String × JsValue))
    (key : String) :
    getKey (mergeProtocol protocol request) key =
      if hasKey request key then getKey request key else getKey protocol key := by
  by_cases h : hasKey request key
  · simp [mergeProtocol, getKey_append, h]
  · have h' : hasKey request key = false := by simpa using h
    rw [mergeProtocol, getKey_append, h']
    simp only [Bool.false_eq_true, if_false]
    exact getKey_filter _ protocol key (fun v => by simp [h'])

theorem getKey_buildFrame (protocol request : List (String × JsValue))
    (key : String) (hk : key ∈ allowList) :
    getKey (buildFrame protocol request) key =
      if hasKey request key then getKey request key else getKey protocol key := by
  rw [buildFrame, getKey_stripUnknown _ _ hk, getKey_mergeProtocol]

/-! Lemmas about the modelled session operations. -/

theorem send_forwarded_eq (s : SessionState) (request : List (String × JsValue))
    (frame req1 : List (String × JsValue)) (pr : DecoratedPromise)
    (h : (Session.send s request).1 = SendOutcome.forwarded frame req1 pr) :
    frame = buildFrame s.protocol request ∧
    req1 = setKey request "id" (JsValue.num (s.nextRequestId + 1)) ∧
    pr = Session.addToPromiseChain ⟨[], JsValue.undef⟩ "requestId"
      (JsValue.num (s.nextRequestId + 1)) := by
  by_cases h1 : s.isSuspended
  · simp [Session.send, h1] at h
  · by_cases h2 : s.socketOpen
    · simp only [Bool.not_eq_true] at h1
      simp [Session.send, h1, h2] at h
      exact ⟨h.1.symm, h.2.1.symm, h.2.2.symm⟩
    · simp only [Bool.not_eq_true] at h1 h2
      simp [Session.send, h1, h2] at h

theorem thenD_chain_props (pr : DecoratedPromise) (fs : List (JsValue → JsValue)) :
    (fs.foldl DecoratedPromise.thenD pr).props = pr.props := by
  induction fs generalizing pr with
  | nil => rfl
  | cons f rest ih => exact ih (pr.thenD f)

theorem getKey_eq_lookup (fields : List (String × JsValue)) (key : String) :
    getKey fields key = (fields.lookup key).getD JsValue.undef := by
  induction fields with
  | nil => rfl
  | cons kv rest ih =>
      obtain ⟨k, v⟩ := kv
      by_cases hk : k = key
      · subst hk
        simp [getKey, List.lookup]
      · have hb : (k == key) = false := by simpa using hk
        have hb2 : (key == k) = false := by simpa using (Ne.symm hk)
        simp [getKey, List.lookup, hb, hb2, ih]

/-! Concrete data used by the witnesses. -/

/-- A live session with the default protocol options. -/
def sampleSession : SessionState :=
  ⟨false, true, false, [("delta", JsValue.bool true)], none, 0, 0⟩

/-- A suspended session. -/
def suspendedSession : SessionState :=
  ⟨true, true, false, [("delta", JsValue.bool true)], none, 0, 0⟩

/-- A request carrying the unknown key xyz, as in the send test. -/
def sampleRequest : List (String × JsValue) :=
  [("method", JsValue.str "a"), ("handle", JsValue.num 1),
   ("params", JsValue.arr []), ("delta", JsValue.bool true),
   ("xyz", JsValue.str "xyz")]

/-- The frame built for sampleRequest: the unknown key xyz is stripped. -/
def sampleFrame : List (String × JsValue) :=
  [("method", JsValue.str "a"), ("handle", JsValue.num 1),
   ("params", JsValue.arr []), ("delta", JsValue.bool true)]

/-- The sample request after the assigned id 1 is mutated into it. -/
def sampleMutatedRequest : List (String × JsValue) :=
  ("id", JsValue.num 1) :: sampleRequest

/-- The promise returned for sampleRequest, decorated with requestId 1. -/
def samplePromise : DecoratedPromise :=
  ⟨[("requestId", JsValue.num 1)], JsValue.undef⟩

/-- A request with an explicit delta of false and the unknown key xyz. -/
def sampleDeltaRequest : List (String × JsValue) :=
  [("method", JsValue.str "a"), ("handle", JsValue.num 1),
   ("params", JsValue.arr []), ("delta", JsValue.bool false),
   ("xyz", JsValue.str "xyz")]

/-- The frame built for sampleDeltaRequest: delta stays false. -/
def sampleDeltaFrame : List (String × JsValue) :=
  [("method", JsValue.str "a"), ("handle", JsValue.num 1),
   ("params", JsValue.arr []), ("delta", JsValue.bool false)]

/-- The sample delta request after the assigned id 1 is mutated into it. -/
def sampleMutatedDeltaRequest : List (String × JsValue) :=
  ("id", JsValue.num 1) :: sampleDeltaRequest

/-! Claim theorems. -/

/-- C1: for every request object passed to Session.send, the frame
forwarded to rpc.send contains only keys from the allow-list, and every
other key present on the request of the caller, such as xyz, is stripped
before sending. -/
theorem send_forwards_only_allowList_keys (s : SessionState)
    (request frame req1 : List (String × JsValue)) (pr : DecoratedPromise)
    (h : (Session.send s request).1 = SendOutcome.forwarded frame req1 pr) :
    (∀ kv ∈ frame, kv.1 ∈ allowList) ∧
    ∀ key, key ∉ allowList → hasKey frame key = false := by
  obtain ⟨hf, -, -⟩ := send_forwarded_eq s request frame req1 pr h
  subst hf
  constructor
  · intro kv hkv
    exact mem_stripUnknown hkv
  · intro key hk
    have hc : allowList.contains key = false := by simpa using hk
    rw [buildFrame, stripUnknown]
    exact hasKey_filter_of_false _ _ key (fun v => hc)

/-- Witness for C1: sending the sample request with the unknown key xyz
forwards a frame whose keys all sit on the allow-list. -/
theorem send_forwards_only_allowList_keys_witness :
    (∀ kv ∈ sampleFrame, kv.1 ∈ allowList) ∧
    ∀ key, key ∉ allowList → hasKey sampleFrame key = false :=
  send_forwards_only_allowList_keys sampleSession sampleRequest sampleFrame
    sampleMutatedRequest samplePromise rfl

/-- C2: protocol options are merged into the outgoing request, but a field
the caller set on the request is never overridden; in particular an
explicit delta of false from the caller survives a protocol delta of
true. -/
theorem send_merges_protocol_without_override (s : SessionState)
    (request frame req1 : List (String × JsValue)) (pr : DecoratedPromise)
    (h : (Session.send s request).1 = SendOutcome.forwarded frame req1 pr)
    (key : String) (hk : key ∈ allowList) :
    (hasKey request key = false → getKey frame key = getKey s.protocol key) ∧
    (getKey request key = JsValue.bool false →
      getKey frame key = JsValue.bool false) := by
  obtain ⟨hf, -, -⟩ := send_forwarded_eq s request frame req1 pr h
  subst hf
  constructor
  · intro hab
    rw [getKey_buildFrame _ _ _ hk]
    simp [hab]
  · intro hval
    have hpres : hasKey request key = true := by
      by_contra hc
      have hc' : hasKey request key = false := by simpa using hc
      rw [getKey_eq_undef_of_hasKey_false request key hc'] at hval
      exact JsValue.noConfusion hval
    rw [getKey_buildFrame _ _ _ hk]
    simp [hpres, hval]

/-- Witness for C2: with a protocol delta of true and a request carrying
delta false, the forwarded frame carries delta false. -/
theorem send_merges_protocol_without_override_witness :
    getKey sampleDeltaFrame "delta" = JsValue.bool false :=
  (send_merges_protocol_without_override sampleSession sampleDeltaRequest
      sampleDeltaFrame sampleMutatedDeltaRequest samplePromise rfl
      "delta" (by decide)).2 rfl

/-- C3: a response whose body carries an error object rejects the caller
with an error whose code, parameter and message equal the corresponding
fields of the error body verbatim. -/
theorem errorInterceptor_throws_verbatim (session request response : JsValue)
    (fields : List (String × JsValue))
    (h : response.getProp "error" = JsValue.obj fields) :
    errorInterceptor session request response =
      Except.error
        ⟨getKey fields "code", getKey fields "parameter",
         getKey fields "message"⟩ := by
  simp only [errorInterceptor]
  rw [h]
  simp [JsValue.truthy, JsValue.getProp]

/-- Witness for C3 on the response of the error-mapping scenario: code 2,
parameter p and message m are carried verbatim. -/
theorem errorInterceptor_throws_verbatim_witness :
    errorInterceptor JsValue.undef JsValue.undef
        (JsValue.obj [("id", JsValue.num 1),
          ("error", JsValue.obj [("code", JsValue.num 2),
            ("parameter", JsValue.str "p"), ("message", JsValue.str "m")])]) =
      Except.error ⟨JsValue.num 2, JsValue.str "p", JsValue.str "m"⟩ :=
  errorInterceptor_throws_verbatim JsValue.undef JsValue.undef
    (JsValue.obj [("id", JsValue.num 1),
      ("error", JsValue.obj [("code", JsValue.num 2),
        ("parameter", JsValue.str "p"), ("message", JsValue.str "m")])])
    [("code", JsValue.num 2), ("parameter", JsValue.str "p"),
     ("message", JsValue.str "m")] rfl

/-- C4: the result interceptor, last step of the default response chain,
returns exactly the result property of the response object. -/
theorem resultInterceptor_returns_result (session request : JsValue)
    (fields : List (String × JsValue)) :
    resultInterceptor session request (JsValue.obj fields) =
      (fields.lookup "result").getD JsValue.undef := by
  simp [resultInterceptor, JsValue.getProp, getKey_eq_lookup]

/-- C5: while the session is suspended every Session.send call rejects
with the error Session suspended and no frame is forwarded to the RPC
layer. -/
theorem send_rejects_while_suspended (s : SessionState)
    (request : List (String × JsValue)) (h : s.isSuspended = true) :
    (Session.send s request).1 = SendOutcome.rejected "Session suspended" ∧
    SendOutcome.frames (Session.send s request).1 = [] := by
  constructor <;> simp [Session.send, h, SendOutcome.frames]

/-- Witness for C5 on a concrete suspended session. -/
theorem send_rejects_while_suspended_witness :
    (Session.send suspendedSession []).1 =
      SendOutcome.rejected "Session suspended" ∧
    SendOutcome.frames (Session.send suspendedSession []).1 = [] :=
  send_rejects_while_suspended suspendedSession [] rfl

/-- C6: while the session is suspended the socket event handlers emit no
event at all: no socket-error, suspended, closed, handle changed or
handle closed event fires for socket activity in the suspended state. -/
theorem handlers_silent_while_suspended (s : SessionState) (err msg : JsValue)
    (code : Int) (h : s.isSuspended = true) :
    Session.onError s err = [] ∧ Session.onClosed s code = [] ∧
    Session.onMessage s msg = [] := by
  refine ⟨?_, ?_, ?_⟩ <;>
    simp [Session.onError, Session.onClosed, Session.onMessage, h]

/-- Witness for C6 on a concrete suspended session. -/
theorem handlers_silent_while_suspended_witness :
    Session.onError suspendedSession JsValue.undef = [] ∧
    Session.onClosed suspendedSession 9999 = [] ∧
    Session.onMessage suspendedSession JsValue.undef = [] :=
  handlers_silent_while_suspended suspendedSession JsValue.undef JsValue.undef
    9999 rfl

/-- C7: Session.open is idempotent: a second call while an open is pending
or completed returns the very same promise as the first call and leaves
the session state unchanged. -/
theorem open_idempotent (s : SessionState) :
    Session.open (Session.open s).2 = ((Session.open s).1, (Session.open s).2) := by
  rcases hs : s.openPromise with _ | p
  · simp [Session.open, hs]
  · simp [Session.open, hs]

/-- C8: the id assigned by the RPC layer is mutated into the request
object, and the promise returned by send, together with every promise
derived from it by .then steps, exposes a requestId property equal to the
assigned id. -/
theorem send_decorates_requestId (s : SessionState)
    (request frame req1 : List (String × JsValue)) (pr : DecoratedPromise)
    (h : (Session.send s request).1 = SendOutcome.forwarded frame req1 pr) :
    getKey req1 "id" = JsValue.num (s.nextRequestId + 1) ∧
    getKey pr.props "requestId" = JsValue.num (s.nextRequestId + 1) ∧
    ∀ fs : List (JsValue → JsValue),
      getKey (fs.foldl DecoratedPromise.thenD pr).props "requestId" =
        JsValue.num (s.nextRequestId + 1) := by
  obtain ⟨-, hr, hp⟩ := send_forwarded_eq s request frame req1 pr h
  subst hr hp
  refine ⟨?_, ?_, fun fs => ?_⟩
  · simp [setKey, getKey]
  · simp [Session.addToPromiseChain, getKey]
  · rw [thenD_chain_props]
    simp [Session.addToPromiseChain, getKey]

/-- Witness for C8: the sample send assigns id 1, mutates it into the
request and decorates the whole promise chain with requestId 1. -/
theorem send_decorates_requestId_witness :
    getKey sampleMutatedRequest "id" = JsValue.num 1 ∧
    getKey samplePromise.props "requestId" = JsValue.num 1 ∧
    ∀ fs : List (JsValue → JsValue),
      getKey (fs.foldl DecoratedPromise.thenD samplePromise).props "requestId" =
        JsValue.num 1 :=
  send_decorates_requestId sampleSession sampleRequest sampleFrame
    sampleMutatedRequest samplePromise rfl

/-- C9: every notification received from the RPC layer is fanned out on
the typed channel carrying the params and on the wildcard channel carrying
the method name as first argument followed by the params. -/
theorem notification_fanout (n : JsValue) (method : String) (params : JsValue)
    (hm : n.getProp "method" = JsValue.str method)
    (hp : n.getProp "params" = params) :
    Session.onNotification n =
      [⟨"notification:" ++ method, [params]⟩,
       ⟨"notification:*", [JsValue.str method, params]⟩] := by
  simp [Session.onNotification, hm, hp, JsValue.asString]

/-- Witness for C9 on a concrete notification with method FooBar. -/
theorem notification_fanout_witness :
    Session.onNotification
        (JsValue.obj [("method", JsValue.str "FooBar"),
          ("params", JsValue.obj [("prop", JsValue.str "bar")])]) =
      [⟨"notification:" ++ "FooBar", [JsValue.obj [("prop", JsValue.str "bar")]]⟩,
       ⟨"notification:*", [JsValue.str "FooBar",
          JsValue.obj [("prop", JsValue.str "bar")]]⟩] :=
  notification_fanout
    (JsValue.obj [("method", JsValue.str "FooBar"),
      ("params", JsValue.obj [("prop", JsValue.str "bar")])])
    "FooBar" (JsValue.obj [("prop", JsValue.str "bar")]) rfl rfl

/-- C10: a response carrying no error field passes through the error
interceptor unchanged, and nothing is thrown. -/
theorem errorInterceptor_identity_without_error (session request response : JsValue)
    (h : response.getProp "error" = JsValue.undef) :
    errorInterceptor session request response = Except.ok response := by
  simp [errorInterceptor, h, JsValue.truthy]

/-- Witness for C10 on the empty response object. -/
theorem errorInterceptor_identity_without_error_witness :
    errorInterceptor JsValue.undef JsValue.undef (JsValue.obj []) =
      Except.ok (JsValue.obj []) :=
  errorInterceptor_identity_without_error JsValue.undef JsValue.undef
    (JsValue.obj []) rfl

end Enigma
